import Mathlib

/-!
Verification of the transcription gateway in `src/main.py`.

The program is a small HTTP handler that downloads an audio file from a
caller-supplied URL into a temporary `.aac` file, converts it to a mono
16 kHz WAV via pydub, transcribes it with an external speech-recognition
collaborator, best-effort persists the result to Firestore, and cleans up
all temporary files in a `finally` block.

The embedding below is a shallow, executable model of that code.  External
collaborators (the HTTP request parser, `requests.get`, pydub decode and
export, the recognizer, the Firestore client) are modelled as components of
an environment `Env`; the local filesystem is modelled as a state `St`
carrying the set of existing temporary files and an instrumentation trace of
events (fetch calls, file creations, unlinks, collaborator invocations).
Python exceptions are modelled with `Except`; `try/except/finally` becomes
explicit control flow on the `Except` value followed by the cleanup pass.
-/

namespace VoiceTracer

/-- Outcome of `requests.get(audio_url, timeout=30)` followed by
`response.raise_for_status()`.  All failure constructors correspond to
subclasses of `requests.RequestException`: `httpError` is the `HTTPError`
raised by `raise_for_status` on a non-2xx response, `timeout` is
`requests.Timeout` when the 30-second bound is exceeded, and `netError`
covers connection-level failures.  The carried string is the Python
exception message `str(e)`. -/
inductive FetchResult where
  | ok : FetchResult
  | httpError (cause : String) : FetchResult
  | timeout (cause : String) : FetchResult
  | netError (cause : String) : FetchResult
deriving DecidableEq

/-- The exception message of a failed fetch; `none` when the fetch
succeeded. -/
def FetchResult.exc : FetchResult → Option String
  | .ok => none
  | .httpError c => some c
  | .timeout c => some c
  | .netError c => some c

/-- A pydub `AudioSegment` as far as this program observes it: the frame
rate and the channel count, which `convert_audio_to_wav` overrides with
`set_frame_rate(16000).set_channels(1)`. -/
structure AudioSegment where
  frame_rate : Nat
  channels : Nat
deriving DecidableEq

/-- `AudioSegment.set_frame_rate` from pydub. -/
def AudioSegment.set_frame_rate (a : AudioSegment) (r : Nat) : AudioSegment :=
  { a with frame_rate := r }

/-- `AudioSegment.set_channels` from pydub. -/
def AudioSegment.set_channels (a : AudioSegment) (c : Nat) : AudioSegment :=
  { a with channels := c }

/-- Contents of a temporary file on disk: either the raw downloaded bytes
(written by `download_audio_file`) or an exported waveform with its format
(written by `audio.export(output_path, format='wav')`). -/
inductive FileData where
  | rawBytes : FileData
  | wav (frame_rate channels : Nat) : FileData
deriving DecidableEq

/-- Instrumentation events recorded by the model.  `fetchCall` logs the
single `requests.get` invocation together with its explicit `timeout=`
argument; the other collaborator calls (`AudioSegment.from_file`,
`recognize_google`, the Firestore write) carry no timeout argument in the
source and hence none here.  `create` is logged when a write brings a file
into existence at a path that did not exist before (an overwrite of an
existing path creates no new artifact); `unlink` is logged by `os.unlink`. -/
inductive Ev where
  | fetchCall (url : String) (timeoutSecs : Nat) : Ev
  | convertCall (path : String) : Ev
  | recognizeCall (path : String) : Ev
  | storeCall : Ev
  | create (path : String) : Ev
  | unlink (path : String) : Ev
deriving DecidableEq

/-- The explicit timeout argument carried by an event, when it has one.
Only the `requests.get` call in `download_audio_file` passes a timeout. -/
def Ev.timeoutArg : Ev → Option Nat
  | .fetchCall _ t => some t
  | _ => none

/-- Whether an event is the fetch (download) call. -/
def Ev.isFetch : Ev → Bool
  | .fetchCall _ _ => true
  | _ => false

/-- Request-scoped filesystem state plus the instrumentation trace. -/
structure St where
  disk : String → Option FileData
  events : List Ev

/-- The state at the start of a request: no temporary files, empty trace. -/
def St.init : St := { disk := fun _ => none, events := [] }

/-- Append an instrumentation event. -/
def St.log (st : St) (e : Ev) : St :=
  { st with events := st.events ++ [e] }

/-- Write file data to a path.  If the path did not exist, this creates a
new artifact and logs `Ev.create`; if it did, the write is an overwrite of
the same artifact (as happens when the WAV is exported a second time to the
same derived name) and no creation is logged. -/
def St.store (st : St) (p : String) (d : FileData) : St :=
  { disk := fun q => if q = p then some d else st.disk q
  , events := st.events ++ (if st.disk p = none then [Ev.create p] else []) }

/-- `if os.path.exists(temp_file): os.unlink(temp_file)` — remove the file
and log the release, but only when it exists. -/
def St.unlinkFile (st : St) (p : String) : St :=
  if st.disk p = none then st
  else
    { disk := fun q => if q = p then none else st.disk q
    , events := st.events ++ [Ev.unlink p] }

/-- Outcome of the speech-recognition collaborator for a given waveform:
`recognize_google` returns text, raises `sr.UnknownValueError`, raises
`sr.RequestError`, or some other exception occurs while opening / recording
/ recognizing the audio.  Error constructors carry the Python exception
message. -/
inductive RecOutcome where
  | recognized (text : String) : RecOutcome
  | unknownValue : RecOutcome
  | requestError (e : String) : RecOutcome
  | otherError (e : String) : RecOutcome
deriving DecidableEq

/-- What `request.get_json()` produced for this request, as the handler
observes it.  `noData` covers every case where `get_json` yields a falsy
value (`None` for a missing or non-JSON body under permissive parsing, JSON
`null`, `{}`, `[]`, …), all of which take the `if not data` branch.
`malformed` is the case where `get_json` itself raises (Flask raises a
`BadRequest`/`UnsupportedMediaType` `HTTPException` — a plain `Exception`
to the handler's `except` clauses — for an unparseable JSON body);
`nonDict` is a truthy JSON value that is not an object, on which
`data.get('audio_url')` raises `AttributeError`.  `dict` is a truthy JSON
object with an optional `audio_url` member. -/
inductive ReqBody where
  | noData : ReqBody
  | malformed (msg : String) : ReqBody
  | nonDict (msg : String) : ReqBody
  | dict (audio_url : Option String) : ReqBody
deriving DecidableEq

/-- Python exceptions that can escape the `try` body of
`transcribe_endpoint`.  `requestException` (any `requests.RequestException`
re-raised out of `download_audio_file`) is caught by the first `except`
clause; everything else falls to the generic `except Exception` clause. -/
inductive PyExc where
  | requestException (msg : String) : PyExc
  | badRequest (msg : String) : PyExc
  | attributeError (msg : String) : PyExc
deriving DecidableEq

/-- The message of an exception, `str(e)` in the source's f-strings. -/
def PyExc.msg : PyExc → String
  | .requestException m => m
  | .badRequest m => m
  | .attributeError m => m

/-- One JSON response body. -/
structure SuccessBody where
  transcription : String
  status : String
  audio_url : String
  firestore_doc_id : Option String
deriving DecidableEq

/-- The `/health` response body. -/
structure HealthBody where
  status : String
  service : String
  firebase : String
  python_version : String
  environment : String
deriving DecidableEq

/-- A JSON response body: either `{'error': msg}`, the `/transcribe`
success object, or the `/health` object. -/
inductive RespBody where
  | err (msg : String) : RespBody
  | success (b : SuccessBody) : RespBody
  | health (b : HealthBody) : RespBody
deriving DecidableEq

/-- An HTTP response: status code plus JSON body.  A bare
`jsonify(...)` returns status 200. -/
structure Resp where
  status : Nat
  body : RespBody
deriving DecidableEq

/-- The environment of one request: the parsed body and the behaviour of
every external collaborator.  `fetch` is `requests.get` composed with
`raise_for_status`, as a function of the URL and the timeout argument;
`tmpBase` is the name `tempfile.NamedTemporaryFile` picks before the
`.aac` suffix is appended; `decode` is `AudioSegment.from_file` (`none`
when it raises); `exportOk` tells whether `audio.export` to the given
output path succeeds; `recog` is the recognition outcome for a given
waveform path; `dbConnected` is `db is not None`; `storeWrite` is the
Firestore `doc_ref.set` call, returning the document id or raising. -/
structure Env where
  body : ReqBody
  fetch : String → Nat → FetchResult
  tmpBase : String
  decode : String → Option AudioSegment
  exportOk : String → Bool
  recog : String → RecOutcome
  dbConnected : Bool
  storeWrite : Except String String
  pythonVersion : String
  firebaseKeyEnvSet : Bool

/-- `download_audio_file(audio_url)`: issue the GET with `timeout=30`,
raise on failure (the `except` clause only logs and re-raises, so the
original `requests` exception propagates), otherwise write the bytes to a
fresh `NamedTemporaryFile(delete=False, suffix='.aac')` and return its
name. -/
def download_audio_file (env : Env) (audio_url : String) (st : St) :
    Except String String × St :=
  let st := st.log (.fetchCall audio_url 30)
  match (env.fetch audio_url 30).exc with
  | some c => (.error c, st)
  | none =>
    let path := env.tmpBase ++ ".aac"
    (.ok path, st.store path .rawBytes)

/-- `convert_audio_to_wav(input_path)`: decode with
`AudioSegment.from_file`, derive the output name by
`input_path.replace('.aac', '.wav')`, force mono 16 kHz, and export as WAV.
Any failure is caught and the original path is returned unchanged. -/
def convert_audio_to_wav (env : Env) (input_path : String) (st : St) :
    String × St :=
  let st := st.log (.convertCall input_path)
  match env.decode input_path with
  | none => (input_path, st)
  | some audio =>
    let output_path := input_path.replace ".aac" ".wav"
    let audio := (audio.set_frame_rate 16000).set_channels 1
    if env.exportOk output_path then
      (output_path, st.store output_path (.wav audio.frame_rate audio.channels))
    else
      (input_path, st)

/-- The string `transcribe_audio` returns for each recognition outcome:
the recognized text, the fixed could-not-understand message on
`sr.UnknownValueError`, the service-error message on `sr.RequestError`, and
the generic message for any other exception. -/
def recogText : RecOutcome → String
  | .recognized t => t
  | .unknownValue => "Could not understand the audio - please speak clearly"
  | .requestError e => "Could not request results from speech recognition service: " ++ e
  | .otherError e => "Error during transcription: " ++ e

/-- `transcribe_audio(audio_path)`: convert to WAV (again — this function
re-derives the WAV itself from the raw path it is given), run the
recognizer on the resulting path, and map all four outcomes to strings.
Every exception inside the body is caught by one of the three `except`
clauses, so the function always returns a string. -/
def transcribe_audio (env : Env) (audio_path : String) (st : St) :
    String × St :=
  let r := convert_audio_to_wav env audio_path st
  let wav_path := r.1
  let st := r.2.log (.recognizeCall wav_path)
  (recogText (env.recog wav_path), st)

/-- `save_to_firestore(transcription, audio_url)`: skip when `db is None`;
otherwise attempt the write and return the new document id, swallowing any
exception and returning `None` instead. -/
def save_to_firestore (env : Env) (st : St) : Option String × St :=
  if env.dbConnected then
    let st := st.log .storeCall
    match env.storeWrite with
    | .ok docId => (some docId, st)
    | .error _ => (none, st)
  else
    (none, st)

/-- Python truthiness of `firestore_doc_id` in
`if firestore_doc_id: response_data['firestore_doc_id'] = ...`:
`None` and the empty string are falsy, so the key is added exactly when the
id is a non-empty string. -/
def truthyId : Option String → Option String
  | some s => if s = "" then none else some s
  | none => none

/-- The `try` body of `transcribe_endpoint`, returning the response or the
escaping exception, together with the `temp_files` list as it stands when
control leaves the body, and the resulting state. -/
def endpointBody (env : Env) (st : St) :
    Except PyExc Resp × List String × St :=
  match env.body with
  | .noData => (.ok ⟨400, .err "No JSON data provided"⟩, [], st)
  | .malformed m => (.error (.badRequest m), [], st)
  | .nonDict m => (.error (.attributeError m), [], st)
  | .dict none => (.ok ⟨400, .err "No audio URL provided"⟩, [], st)
  | .dict (some audio_url) =>
    if audio_url = "" then
      (.ok ⟨400, .err "No audio URL provided"⟩, [], st)
    else
      match download_audio_file env audio_url st with
      | (.error e, st) => (.error (.requestException e), [], st)
      | (.ok temp_audio_path, st) =>
        let c := convert_audio_to_wav env temp_audio_path st
        let wav_path := c.1
        let temp_files :=
          if wav_path ≠ temp_audio_path then [temp_audio_path, wav_path]
          else [temp_audio_path]
        let t := transcribe_audio env temp_audio_path c.2
        let s := save_to_firestore env t.2
        let response_data : SuccessBody :=
          { transcription := t.1
          , status := "success"
          , audio_url := audio_url
          , firestore_doc_id := truthyId s.1 }
        (.ok ⟨200, .success response_data⟩, temp_files, s.2)

/-- The `finally` block: for each tracked temp file, unlink it if it still
exists (errors during cleanup are swallowed and cannot occur in the
model). -/
def cleanup : List String → St → St
  | [], st => st
  | p :: rest, st => cleanup rest (st.unlinkFile p)

/-- The two `except` clauses of `transcribe_endpoint`:
`requests.RequestException` becomes a 400 with the download error message,
any other exception becomes a 500 with the generic message. -/
def excResponse : PyExc → Resp
  | .requestException m => ⟨400, .err ("Error downloading audio file: " ++ m)⟩
  | e => ⟨500, .err ("Error processing request: " ++ e.msg)⟩

/-- `transcribe_endpoint`: run the `try` body, map an escaping exception
through the `except` clauses, and run the `finally` cleanup over the
tracked temp files on every exit path. -/
def transcribe_endpoint (env : Env) (st : St) : Resp × St :=
  match endpointBody env st with
  | (r, temp_files, st) =>
    let resp := match r with
      | .ok resp => resp
      | .error e => excResponse e
    (resp, cleanup temp_files st)

/-- One request handled from a fresh request-scoped state. -/
def runT (env : Env) : Resp × St := transcribe_endpoint env St.init

/-- `health_check()`: always 200, with the `firebase` field reporting
whether the module-level Firestore client was initialized. -/
def health_check (env : Env) : Resp :=
  let b : HealthBody :=
    { status := "healthy"
    , service := "speech-to-text"
    , firebase := if env.dbConnected then "connected" else "not connected"
    , python_version := env.pythonVersion
    , environment := if env.firebaseKeyEnvSet then "production" else "development" }
  { status := 200, body := .health b }

/-- The paths of the `create` events of a trace, in order: one entry per
transient artifact brought into existence. -/
def createdPaths : List Ev → List String
  | [] => []
  | .create p :: es => p :: createdPaths es
  | _ :: es => createdPaths es

/-- The paths of the `unlink` events of a trace, in order: one entry per
release of a transient artifact. -/
def unlinkedPaths : List Ev → List String
  | [] => []
  | .unlink p :: es => p :: unlinkedPaths es
  | _ :: es => unlinkedPaths es

/-- The raw artifact path a successful download returns. -/
def rawPath (env : Env) : String := env.tmpBase ++ ".aac"

/-- The path `convert_audio_to_wav` returns for a given input, which does
not depend on the filesystem state: the `.aac`→`.wav` replacement name on
success, the input itself on any decode/export failure. -/
def normPath (env : Env) (p : String) : String :=
  match env.decode p with
  | none => p
  | some _ => if env.exportOk (p.replace ".aac" ".wav") then p.replace ".aac" ".wav" else p

/-- The transcription string the pipeline produces for a request whose
download succeeded.  Depends only on the decode/export/recognition
collaborators, not on the Firestore ones. -/
def pipelineTranscription (env : Env) : String :=
  recogText (env.recog (normPath env (rawPath env)))

/-- The persisted-id field of the success response: present exactly when
the store is connected, the write succeeds, and the returned id is a
non-empty (truthy) string. -/
def persistedId (env : Env) : Option String :=
  if env.dbConnected then
    match env.storeWrite with
    | .ok docId => truthyId (some docId)
    | .error _ => none
  else
    none

/-- The document id `save_to_firestore` returns (before the response
builder applies Python truthiness to it). -/
def rawDocId (env : Env) : Option String :=
  if env.dbConnected then
    match env.storeWrite with
    | .ok docId => some docId
    | .error _ => none
  else
    none

/-- Whether normalization of the file at `p` fully succeeds (decode and
export both work). -/
def normSucceeds (env : Env) (p : String) : Bool :=
  match env.decode p with
  | none => false
  | some _ => env.exportOk (p.replace ".aac" ".wav")

/-- The full instrumentation trace of a request whose validation and
download succeed: the fetch, the raw-file creation, the orchestrator's
conversion (creating the WAV when normalization succeeds at a genuinely
new path), the second conversion performed inside `transcribe_audio`
(which at most overwrites the same WAV path), the recognition, the
optional store write, and the cleanup unlinks of exactly the tracked
files. -/
def successTrace (env : Env) (url : String) : List Ev :=
  let raw := rawPath env
  let out := raw.replace ".aac" ".wav"
  [Ev.fetchCall url 30, Ev.create raw, Ev.convertCall raw]
  ++ (if normSucceeds env raw && (out != raw) then [Ev.create out] else [])
  ++ [Ev.convertCall raw, Ev.recognizeCall (normPath env raw)]
  ++ (if env.dbConnected then [Ev.storeCall] else [])
  ++ [Ev.unlink raw]
  ++ (if normSucceeds env raw && (out != raw) then [Ev.unlink out] else [])

/-- A concrete fully-successful environment used to exercise the model. -/
def baseEnv : Env :=
  { body := .dict (some "http://example.com/a.aac")
  , fetch := fun _ _ => .ok
  , tmpBase := "/tmp/tmpabc123"
  , decode := fun _ => some { frame_rate := 44100, channels := 2 }
  , exportOk := fun _ => true
  , recog := fun _ => .recognized "hello world"
  , dbConnected := true
  , storeWrite := .ok "doc1"
  , pythonVersion := "3.11"
  , firebaseKeyEnvSet := false }

/-- An environment whose request body is unparseable JSON, on which
`request.get_json()` raises. -/
def malformedEnv : Env :=
  { baseEnv with body := .malformed "Failed to decode JSON object" }

/-- An environment with a well-formed body but no JSON data. -/
def noDataEnv : Env :=
  { baseEnv with body := .noData }

/-- An environment whose download fails with an HTTP 404 from
`raise_for_status`. -/
def fetch404Env : Env :=
  { baseEnv with fetch := fun _ _ => .httpError "404 Client Error: Not Found" }

/-- An environment whose download exceeds the 30-second timeout. -/
def timeoutEnv : Env :=
  { baseEnv with fetch := fun _ _ => .timeout "Read timed out. (read timeout=30)" }

/-- An environment whose recognizer raises `sr.UnknownValueError`. -/
def unintelligibleEnv : Env :=
  { baseEnv with recog := fun _ => .unknownValue }

/-- An environment whose Firestore write raises. -/
def storeFailEnv : Env :=
  { baseEnv with storeWrite := .error "deadline exceeded" }

/-- An environment whose audio decoding fails, so normalization degrades
to the raw artifact. -/
def decodeFailEnv : Env :=
  { baseEnv with decode := fun _ => none }

/-- An environment whose audio decodes but whose WAV re-encoding
(`audio.export`) fails, the other way normalization can degrade. -/
def exportFailEnv : Env :=
  { baseEnv with exportOk := fun _ => false }

/-- An environment where the Firestore client failed to initialize at
startup (`db is None`). -/
def dbDownEnv : Env :=
  { baseEnv with dbConnected := false }

/-- The `firebase` connectivity flag of a `/health` response body. -/
def Resp.firebaseFlag : Resp → Option String
  | ⟨_, .health b⟩ => some b.firebase
  | _ => none

/-- Whether an event is a conversion (`AudioSegment.from_file`) call on
path `p`. -/
def isConvertCallOn (p : String) : Ev → Bool
  | .convertCall q => q == p
  | _ => false

/-- An event respects the timeout discipline when it either carries no
explicit timeout or is the fetch call with its bound equal to 30. -/
def timeoutOk (ev : Ev) : Bool :=
  match ev.timeoutArg with
  | some t => (t == 30) && ev.isFetch
  | none => true

theorem convert_audio_to_wav_fst (env : Env) (p : String) (st : St) :
    (convert_audio_to_wav env p st).1 = normPath env p := by
  unfold convert_audio_to_wav normPath
  cases hd : env.decode p with
  | none => rfl
  | some a =>
    by_cases he : env.exportOk (p.replace ".aac" ".wav") <;> simp [he]

theorem transcribe_audio_fst (env : Env) (p : String) (st : St) :
    (transcribe_audio env p st).1 = recogText (env.recog (normPath env p)) := by
  simp only [transcribe_audio, convert_audio_to_wav_fst]

theorem save_to_firestore_fst (env : Env) (st : St) :
    (save_to_firestore env st).1 = rawDocId env := by
  unfold save_to_firestore rawDocId
  cases env.dbConnected <;> cases env.storeWrite <;> simp

theorem truthyId_rawDocId (env : Env) :
    truthyId (rawDocId env) = persistedId env := by
  unfold rawDocId persistedId
  cases env.dbConnected <;> cases env.storeWrite <;> simp [truthyId]

theorem download_ok (env : Env) (url : String)
    (hf : (env.fetch url 30).exc = none) (st : St) :
    download_audio_file env url st =
      (.ok (rawPath env),
        (st.log (.fetchCall url 30)).store (rawPath env) .rawBytes) := by
  unfold download_audio_file rawPath
  rw [hf]

theorem download_err (env : Env) (url : String) (c : String)
    (hf : (env.fetch url 30).exc = some c) (st : St) :
    download_audio_file env url st = (.error c, st.log (.fetchCall url 30)) := by
  unfold download_audio_file
  rw [hf]

theorem convert_decodeFail (env : Env) (p : String)
    (hd : env.decode p = none) (st : St) :
    convert_audio_to_wav env p st = (p, st.log (.convertCall p)) := by
  unfold convert_audio_to_wav
  rw [hd]

theorem convert_exportFail (env : Env) (p : String) (a : AudioSegment)
    (hd : env.decode p = some a)
    (he : env.exportOk (p.replace ".aac" ".wav") = false) (st : St) :
    convert_audio_to_wav env p st = (p, st.log (.convertCall p)) := by
  unfold convert_audio_to_wav
  rw [hd]
  simp [he]

theorem convert_ok (env : Env) (p : String) (a : AudioSegment)
    (hd : env.decode p = some a)
    (he : env.exportOk (p.replace ".aac" ".wav") = true) (st : St) :
    convert_audio_to_wav env p st =
      (p.replace ".aac" ".wav",
        (st.log (.convertCall p)).store (p.replace ".aac" ".wav") (.wav 16000 1)) := by
  unfold convert_audio_to_wav
  rw [hd]
  simp [he, AudioSegment.set_frame_rate, AudioSegment.set_channels]

theorem normPath_decodeFail (env : Env) (p : String)
    (hd : env.decode p = none) : normPath env p = p := by
  unfold normPath
  rw [hd]

theorem normPath_exportFail (env : Env) (p : String) (a : AudioSegment)
    (hd : env.decode p = some a)
    (he : env.exportOk (p.replace ".aac" ".wav") = false) :
    normPath env p = p := by
  unfold normPath
  rw [hd]
  simp [he]

theorem normPath_ok (env : Env) (p : String) (a : AudioSegment)
    (hd : env.decode p = some a)
    (he : env.exportOk (p.replace ".aac" ".wav") = true) :
    normPath env p = p.replace ".aac" ".wav" := by
  unfold normPath
  rw [hd]
  simp [he]

theorem save_disconnected (env : Env) (h : env.dbConnected = false) (st : St) :
    save_to_firestore env st = (none, st) := by
  unfold save_to_firestore
  rw [h]
  rfl

theorem save_connected_ok (env : Env) (d : String)
    (h : env.dbConnected = true) (hs : env.storeWrite = .ok d) (st : St) :
    save_to_firestore env st = (some d, st.log .storeCall) := by
  unfold save_to_firestore
  rw [h, hs]
  rfl

theorem save_connected_err (env : Env) (e : String)
    (h : env.dbConnected = true) (hs : env.storeWrite = .error e) (st : St) :
    save_to_firestore env st = (none, st.log .storeCall) := by
  unfold save_to_firestore
  rw [h, hs]
  rfl

set_option maxHeartbeats 2000000 in
theorem runT_success (env : Env) (url : String)
    (hb : env.body = .dict (some url)) (hu : url ≠ "")
    (hf : (env.fetch url 30).exc = none) :
    (runT env).1 = ⟨200, .success ⟨pipelineTranscription env, "success", url, persistedId env⟩⟩ ∧
    (runT env).2.events = successTrace env url ∧
    ∀ p, (runT env).2.disk p = none := by
  unfold runT transcribe_endpoint endpointBody transcribe_audio pipelineTranscription successTrace persistedId normSucceeds
  simp only [hb, if_neg hu, download_ok env url hf]
  rcases hd : env.decode (rawPath env) with _ | a
  · simp only [hd, convert_decodeFail env (rawPath env) hd,
      normPath_decodeFail env (rawPath env) hd]
    cases hdb : env.dbConnected
    · simp only [save_disconnected env hdb]
      simp [St.store, St.log, St.unlinkFile, St.init, cleanup, truthyId]
    · cases hs : env.storeWrite with
      | ok d =>
        simp only [save_connected_ok env d hdb hs]
        simp [St.store, St.log, St.unlinkFile, St.init, cleanup, truthyId, hs]
      | error e =>
        simp only [save_connected_err env e hdb hs]
        simp [St.store, St.log, St.unlinkFile, St.init, cleanup, truthyId, hs]
  · cases he : env.exportOk ((rawPath env).replace ".aac" ".wav")
    · simp only [hd, he, convert_exportFail env (rawPath env) a hd he,
        normPath_exportFail env (rawPath env) a hd he]
      cases hdb : env.dbConnected
      · simp only [save_disconnected env hdb]
        simp [St.store, St.log, St.unlinkFile, St.init, cleanup, truthyId]
      · cases hs : env.storeWrite with
        | ok d =>
          simp only [save_connected_ok env d hdb hs]
          simp [St.store, St.log, St.unlinkFile, St.init, cleanup, truthyId, hs]
        | error e =>
          simp only [save_connected_err env e hdb hs]
          simp [St.store, St.log, St.unlinkFile, St.init, cleanup, truthyId, hs]
    · simp only [hd, he, convert_ok env (rawPath env) a hd he,
        normPath_ok env (rawPath env) a hd he]
      by_cases hw : (rawPath env).replace ".aac" ".wav" = rawPath env
      · cases hdb : env.dbConnected
        · simp only [save_disconnected env hdb]
          simp [St.store, St.log, St.unlinkFile, St.init, cleanup, truthyId, hw]
          intro p hp
          simp [hp]
        · cases hs : env.storeWrite with
          | ok d =>
            simp only [save_connected_ok env d hdb hs]
            simp [St.store, St.log, St.unlinkFile, St.init, cleanup, truthyId, hs, hw]
            intro p hp
            simp [hp]
          | error e =>
            simp only [save_connected_err env e hdb hs]
            simp [St.store, St.log, St.unlinkFile, St.init, cleanup, truthyId, hs, hw]
            intro p hp
            simp [hp]
      · have hw2 : rawPath env ≠ (rawPath env).replace ".aac" ".wav" := fun h => hw h.symm
        cases hdb : env.dbConnected
        · simp only [save_disconnected env hdb]
          simp [St.store, St.log, St.unlinkFile, St.init, cleanup, truthyId, hw, hw2]
          intro p hp1 hp2
          simp [hp1, hp2]
        · cases hs : env.storeWrite with
          | ok d =>
            simp only [save_connected_ok env d hdb hs]
            simp [St.store, St.log, St.unlinkFile, St.init, cleanup, truthyId, hs, hw, hw2]
            intro p hp1 hp2
            simp [hp1, hp2]
          | error e =>
            simp only [save_connected_err env e hdb hs]
            simp [St.store, St.log, St.unlinkFile, St.init, cleanup, truthyId, hs, hw, hw2]
            intro p hp1 hp2
            simp [hp1, hp2]


theorem runT_fetchErr (env : Env) (url c : String)
    (hb : env.body = .dict (some url)) (hu : url ≠ "")
    (hf : (env.fetch url 30).exc = some c) :
    (runT env).1 = ⟨400, .err ("Error downloading audio file: " ++ c)⟩ ∧
    (runT env).2.events = [Ev.fetchCall url 30] ∧
    ∀ p, (runT env).2.disk p = none := by
  unfold runT transcribe_endpoint endpointBody
  simp only [hb, if_neg hu, download_err env url c hf]
  simp [cleanup, St.log, St.init, excResponse]

theorem runT_noData (env : Env) (hb : env.body = .noData) :
    runT env = (⟨400, .err "No JSON data provided"⟩, St.init) := by
  unfold runT transcribe_endpoint endpointBody
  simp [hb, cleanup]

theorem runT_noUrl (env : Env) (hb : env.body = .dict none) :
    runT env = (⟨400, .err "No audio URL provided"⟩, St.init) := by
  unfold runT transcribe_endpoint endpointBody
  simp [hb, cleanup]

theorem runT_emptyUrl (env : Env) (hb : env.body = .dict (some "")) :
    runT env = (⟨400, .err "No audio URL provided"⟩, St.init) := by
  unfold runT transcribe_endpoint endpointBody
  simp [hb, cleanup]

theorem runT_malformed (env : Env) (m : String) (hb : env.body = .malformed m) :
    runT env = (⟨500, .err ("Error processing request: " ++ m)⟩, St.init) := by
  unfold runT transcribe_endpoint endpointBody
  simp [hb, cleanup, excResponse, PyExc.msg]

theorem runT_nonDict (env : Env) (m : String) (hb : env.body = .nonDict m) :
    runT env = (⟨500, .err ("Error processing request: " ++ m)⟩, St.init) := by
  unfold runT transcribe_endpoint endpointBody
  simp [hb, cleanup, excResponse, PyExc.msg]


theorem successTrace_created_unlinked (env : Env) (url : String) :
    createdPaths (successTrace env url) = unlinkedPaths (successTrace env url) := by
  simp only [successTrace]
  cases hnb : normSucceeds env (rawPath env) && ((rawPath env).replace ".aac" ".wav" != rawPath env) <;>
    cases hdb : env.dbConnected <;>
      simp [hnb, hdb, createdPaths, unlinkedPaths]

/-- C1: for every request to POST /transcribe, every transient audio
artifact created during the request (the downloaded raw file and any
normalized WAV copy) is released exactly once before the handler returns:
the list of created artifact paths equals the list of unlinked artifact
paths (no leak, no double release), and no temporary file remains on disk,
on every exit path (validation failure, caught fetch error, the
exception-to-500 path, and success). -/
theorem transcribe_cleanup_exactly_once (env : Env) :
    createdPaths (runT env).2.events = unlinkedPaths (runT env).2.events ∧
    ∀ p, (runT env).2.disk p = none := by
  cases hb : env.body with
  | noData =>
    rw [runT_noData env hb]
    exact ⟨rfl, fun p => rfl⟩
  | malformed m =>
    rw [runT_malformed env m hb]
    exact ⟨rfl, fun p => rfl⟩
  | nonDict m =>
    rw [runT_nonDict env m hb]
    exact ⟨rfl, fun p => rfl⟩
  | dict o =>
    cases o with
    | none =>
      rw [runT_noUrl env hb]
      exact ⟨rfl, fun p => rfl⟩
    | some url =>
      by_cases hu : url = ""
      · subst hu
        rw [runT_emptyUrl env hb]
        exact ⟨rfl, fun p => rfl⟩
      · cases hf : (env.fetch url 30).exc with
        | some c =>
          obtain ⟨h1, h2, h3⟩ := runT_fetchErr env url c hb hu hf
          rw [h2]
          exact ⟨rfl, h3⟩
        | none =>
          obtain ⟨h1, h2, h3⟩ := runT_success env url hb hu hf
          rw [h2]
          exact ⟨successTrace_created_unlinked env url, h3⟩

/-- C2 counterexample: a request body that is unparseable JSON makes
`request.get_json()` raise; the handler's generic `except Exception`
clause turns that into HTTP 500, not the 400 the claim states. -/
theorem unparseable_body_gives_500_not_400 :
    (runT malformedEnv).1.status = 500 ∧ (runT malformedEnv).1.status ≠ 400 := by
  constructor
  · rw [runT_malformed malformedEnv "Failed to decode JSON object" rfl]
  · rw [runT_malformed malformedEnv "Failed to decode JSON object" rfl]
    decide

/-- C2 (amended): when `get_json` yields no data (`None` or another falsy
value, covering a missing body under permissive parsing) or `audio_url` is
absent or empty, the handler returns HTTP 400 with an empty instrumentation
trace — the Fetcher is never invoked and no transient resource is
allocated; when `get_json` raises on an unparseable body, the handler
instead returns HTTP 500, likewise without invoking the Fetcher. -/
theorem transcribe_validation_short_circuit (env : Env) :
    ((env.body = .noData ∨ env.body = .dict none ∨ env.body = .dict (some "")) →
      (runT env).1.status = 400 ∧ (runT env).2.events = []) ∧
    (∀ m, env.body = .malformed m →
      (runT env).1.status = 500 ∧ (runT env).2.events = []) := by
  constructor
  · rintro (hb | hb | hb)
    · rw [runT_noData env hb]
      exact ⟨rfl, rfl⟩
    · rw [runT_noUrl env hb]
      exact ⟨rfl, rfl⟩
    · rw [runT_emptyUrl env hb]
      exact ⟨rfl, rfl⟩
  · intro m hb
    rw [runT_malformed env m hb]
    exact ⟨rfl, rfl⟩

theorem transcribe_validation_short_circuit_witness :
    (runT noDataEnv).1.status = 400 ∧ (runT noDataEnv).2.events = [] :=
  (transcribe_validation_short_circuit noDataEnv).1 (Or.inl rfl)

/-- C3: when the download fails — a non-2xx HTTP response rejected by
`raise_for_status` or a network-level failure, both
`requests.RequestException`s — the handler returns HTTP 400 whose error
message textually contains the underlying cause, and no record is written
to the external store (the Firestore collaborator is never invoked and no
artifact was created). -/
theorem fetch_failure_returns_400 (env : Env) (url c : String)
    (hb : env.body = .dict (some url)) (hu : url ≠ "")
    (hf : env.fetch url 30 = .httpError c ∨ env.fetch url 30 = .netError c) :
    (runT env).1 = ⟨400, .err ("Error downloading audio file: " ++ c)⟩ ∧
    Ev.storeCall ∉ (runT env).2.events ∧
    createdPaths (runT env).2.events = [] := by
  have hexc : (env.fetch url 30).exc = some c := by
    rcases hf with h | h <;> rw [h] <;> rfl
  obtain ⟨h1, h2, h3⟩ := runT_fetchErr env url c hb hu hexc
  refine ⟨h1, ?_, ?_⟩ <;> rw [h2]
  · simp
  · rfl

theorem fetch_failure_returns_400_witness :
    (runT fetch404Env).1 =
      ⟨400, .err ("Error downloading audio file: " ++ "404 Client Error: Not Found")⟩ ∧
    Ev.storeCall ∉ (runT fetch404Env).2.events ∧
    createdPaths (runT fetch404Env).2.events = [] :=
  fetch_failure_returns_400 fetch404Env "http://example.com/a.aac"
    "404 Client Error: Not Found" rfl (by decide) (Or.inl rfl)



/-- C4: the Transcriber is total — it returns a plain string for every
waveform artifact (the Lean embedding returns `String`, mirroring the
source's catch-all `except` clauses, so no exception escapes): recognized
content yields the recognized text, unintelligible content yields the
fixed could-not-understand string, a recognition-service failure yields a
string embedding the service error, and any other failure yields the
fourth textual-error string. -/
theorem transcribe_audio_outcomes (env : Env) (path : String) (st : St) :
    (transcribe_audio env path st).1 = recogText (env.recog (normPath env path)) ∧
    (∀ t, env.recog (normPath env path) = .recognized t →
      (transcribe_audio env path st).1 = t) ∧
    (env.recog (normPath env path) = .unknownValue →
      (transcribe_audio env path st).1 =
        "Could not understand the audio - please speak clearly") ∧
    (∀ e, env.recog (normPath env path) = .requestError e →
      (transcribe_audio env path st).1 =
        "Could not request results from speech recognition service: " ++ e) ∧
    (∀ e, env.recog (normPath env path) = .otherError e →
      (transcribe_audio env path st).1 = "Error during transcription: " ++ e) := by
  refine ⟨transcribe_audio_fst env path st, ?_, ?_, ?_, ?_⟩
  · intro t h
    rw [transcribe_audio_fst env path st, h]
    rfl
  · intro h
    rw [transcribe_audio_fst env path st, h]
    rfl
  · intro e h
    rw [transcribe_audio_fst env path st, h]
    rfl
  · intro e h
    rw [transcribe_audio_fst env path st, h]
    rfl

theorem transcribe_audio_outcomes_witness :
    (transcribe_audio unintelligibleEnv "/tmp/tmpabc123.aac" St.init).1 =
      "Could not understand the audio - please speak clearly" :=
  (transcribe_audio_outcomes unintelligibleEnv "/tmp/tmpabc123.aac" St.init).2.2.1 rfl

/-- C5: when the store client was never established (`db is None`) or the
store write raises, the Persister returns no id instead of raising, the
request still completes with HTTP 200, and the response body omits the
`firestore_doc_id` field while carrying the unchanged in-memory
transcription result. -/
theorem persistence_failure_nonfatal (env : Env) (url : String)
    (hb : env.body = .dict (some url)) (hu : url ≠ "")
    (hf : (env.fetch url 30).exc = none)
    (hp : env.dbConnected = false ∨ ∃ e, env.storeWrite = .error e) :
    (∀ st, (save_to_firestore env st).1 = none) ∧
    (runT env).1.status = 200 ∧
    (runT env).1.body = .success ⟨pipelineTranscription env, "success", url, none⟩ := by
  have hid : persistedId env = none := by
    rcases hp with h | ⟨e, h⟩
    · simp [persistedId, h]
    · simp [persistedId, h]
  have hsave : ∀ st, (save_to_firestore env st).1 = none := by
    intro st
    rw [save_to_firestore_fst]
    rcases hp with h | ⟨e, h⟩
    · simp [rawDocId, h]
    · simp [rawDocId, h]
  obtain ⟨h1, h2, h3⟩ := runT_success env url hb hu hf
  refine ⟨hsave, ?_, ?_⟩
  · rw [h1]
  · rw [h1, hid]

theorem persistence_failure_nonfatal_witness :
    (save_to_firestore storeFailEnv St.init).1 = none ∧
    (runT storeFailEnv).1.status = 200 ∧
    (runT storeFailEnv).1.body =
      .success ⟨"hello world", "success", "http://example.com/a.aac", none⟩ := by
  obtain ⟨h1, h2, h3⟩ :=
    persistence_failure_nonfatal storeFailEnv "http://example.com/a.aac" rfl
      (by decide) rfl (Or.inr ⟨"deadline exceeded", rfl⟩)
  exact ⟨h1 St.init, h2, h3⟩

/-- C6: the Normalizer never raises — on any decode or export failure it
returns the original unnormalized artifact path and the pipeline still
proceeds to the Transcriber (on the raw path) and completes with HTTP 200;
on success it returns the derived WAV path whose file holds a mono
(1 channel), 16 kHz waveform. -/
theorem normalizer_degrades_gracefully (env : Env) :
    (∀ p st, (env.decode p = none ∨ env.exportOk (p.replace ".aac" ".wav") = false) →
      (convert_audio_to_wav env p st).1 = p) ∧
    (∀ p st a, env.decode p = some a →
      env.exportOk (p.replace ".aac" ".wav") = true →
      (convert_audio_to_wav env p st).1 = p.replace ".aac" ".wav" ∧
      (convert_audio_to_wav env p st).2.disk (p.replace ".aac" ".wav") =
        some (.wav 16000 1)) ∧
    (∀ url, env.body = .dict (some url) → url ≠ "" →
      (env.fetch url 30).exc = none →
      (env.decode (rawPath env) = none ∨
        env.exportOk ((rawPath env).replace ".aac" ".wav") = false) →
      (runT env).1.status = 200 ∧
      Ev.recognizeCall (rawPath env) ∈ (runT env).2.events) := by
  refine ⟨?_, ?_, ?_⟩
  · intro p st h
    rw [convert_audio_to_wav_fst]
    unfold normPath
    rcases h with h | h
    · rw [h]
    · cases hd : env.decode p
      · rfl
      · simp [h]
  · intro p st a hd he
    rw [convert_ok env p a hd he st]
    constructor
    · rfl
    · simp [St.store]
  · intro url hb hu hf hfail
    obtain ⟨h1, h2, h3⟩ := runT_success env url hb hu hf
    have hn : normPath env (rawPath env) = rawPath env := by
      rcases hfail with hd | he
      · exact normPath_decodeFail env _ hd
      · cases hd : env.decode (rawPath env) with
        | none => exact normPath_decodeFail env _ hd
        | some a => exact normPath_exportFail env _ a hd he
    constructor
    · rw [h1]
    · rw [h2]
      simp [successTrace, hn]

theorem normalizer_degrades_gracefully_witness :
    (convert_audio_to_wav exportFailEnv "/tmp/tmpabc123.aac" St.init).1 =
      "/tmp/tmpabc123.aac" ∧
    (runT exportFailEnv).1.status = 200 ∧
    Ev.recognizeCall (rawPath exportFailEnv) ∈ (runT exportFailEnv).2.events := by
  obtain ⟨h1, h2, h3⟩ := normalizer_degrades_gracefully exportFailEnv
  refine ⟨h1 "/tmp/tmpabc123.aac" St.init (Or.inr rfl), ?_, ?_⟩
  · exact (h3 "http://example.com/a.aac" rfl (by decide) rfl (Or.inr rfl)).1
  · exact (h3 "http://example.com/a.aac" rfl (by decide) rfl (Or.inr rfl)).2

/-- C7: whenever the download succeeds, the handler returns HTTP 200 with a
body holding exactly the fields transcription, status and audio_url (the
request URL echoed back), plus `firestore_doc_id` exactly when a truthy
persisted id exists; the status field is the literal string "success"
regardless of the transcription content. -/
theorem success_response_shape (env : Env) (url : String)
    (hb : env.body = .dict (some url)) (hu : url ≠ "")
    (hf : (env.fetch url 30).exc = none) :
    (runT env).1 =
      ⟨200, .success ⟨pipelineTranscription env, "success", url, persistedId env⟩⟩ :=
  (runT_success env url hb hu hf).1

theorem success_response_shape_witness :
    (runT unintelligibleEnv).1 =
      ⟨200, .success
        ⟨"Could not understand the audio - please speak clearly", "success",
          "http://example.com/a.aac", some "doc1"⟩⟩ :=
  success_response_shape unintelligibleEnv "http://example.com/a.aac" rfl
    (by decide) rfl



/-- C8: GET /health always returns HTTP 200, even when the store client
failed to initialize (`db is None`), and the `firebase` connectivity flag
in the body reflects whether the client is connected; the handler is a
total function of the environment, so the health check never blocks the
rest of the service. -/
theorem health_check_always_200 (env : Env) :
    (health_check env).status = 200 ∧
    (env.dbConnected = true → (health_check env).firebaseFlag = some "connected") ∧
    (env.dbConnected = false →
      (health_check env).firebaseFlag = some "not connected") := by
  refine ⟨rfl, ?_, ?_⟩ <;> intro h <;> simp [health_check, Resp.firebaseFlag, h]

theorem health_check_always_200_witness :
    (health_check dbDownEnv).status = 200 ∧
    (health_check dbDownEnv).firebaseFlag = some "not connected" :=
  ⟨(health_check_always_200 dbDownEnv).1,
    (health_check_always_200 dbDownEnv).2.2 rfl⟩

theorem successTrace_all_timeoutOk (env : Env) (url : String) :
    (successTrace env url).all timeoutOk = true := by
  simp only [successTrace]
  cases hnb : normSucceeds env (rawPath env) &&
      ((rawPath env).replace ".aac" ".wav" != rawPath env) <;>
    cases hdb : env.dbConnected <;>
      simp [hnb, hdb, timeoutOk, Ev.timeoutArg, Ev.isFetch]

theorem runT_events_all_timeoutOk (env : Env) :
    (runT env).2.events.all timeoutOk = true := by
  cases hb : env.body with
  | noData => rw [runT_noData env hb]; rfl
  | malformed m => rw [runT_malformed env m hb]; rfl
  | nonDict m => rw [runT_nonDict env m hb]; rfl
  | dict o =>
    cases o with
    | none => rw [runT_noUrl env hb]; rfl
    | some url =>
      by_cases hu : url = ""
      · subst hu
        rw [runT_emptyUrl env hb]
        rfl
      · cases hf : (env.fetch url 30).exc with
        | some c =>
          obtain ⟨h1, h2, h3⟩ := runT_fetchErr env url c hb hu hf
          rw [h2]
          rfl
        | none =>
          obtain ⟨h1, h2, h3⟩ := runT_success env url hb hu hf
          rw [h2]
          exact successTrace_all_timeoutOk env url

/-- C9: on every exit path, every collaborator call that carries an
explicit timeout is the fetch call and its bound is exactly 30 time-units
(`requests.get(audio_url, timeout=30)` is the only explicit timeout in the
pipeline), and when the fetch times out the whole request fails with
HTTP 400 (the timeout is a `requests.RequestException` handled as a fetch
failure). -/
theorem fetch_timeout_discipline (env : Env) :
    (∀ ev ∈ (runT env).2.events, ∀ t, ev.timeoutArg = some t →
      t = 30 ∧ ev.isFetch = true) ∧
    (∀ url c, env.body = .dict (some url) → url ≠ "" →
      env.fetch url 30 = .timeout c → (runT env).1.status = 400) := by
  constructor
  · intro ev hev t ht
    have hall := List.all_eq_true.mp (runT_events_all_timeoutOk env) ev hev
    unfold timeoutOk at hall
    rw [ht] at hall
    simp at hall
    exact hall
  · intro url c hb hu hft
    have hexc : (env.fetch url 30).exc = some c := by
      rw [hft]
      rfl
    have h1 := (runT_fetchErr env url c hb hu hexc).1
    rw [h1]

theorem fetch_timeout_discipline_witness :
    (runT timeoutEnv).1.status = 400 :=
  (fetch_timeout_discipline timeoutEnv).2 "http://example.com/a.aac"
    "Read timed out. (read timeout=30)" rfl (by decide) rfl

theorem successTrace_convert_count (env : Env) (url : String) :
    ((successTrace env url).filter (isConvertCallOn (rawPath env))).length = 2 := by
  simp only [successTrace]
  cases hnb : normSucceeds env (rawPath env) &&
      ((rawPath env).replace ".aac" ".wav" != rawPath env) <;>
    cases hdb : env.dbConnected <;>
      simp [hnb, hdb, isConvertCallOn, List.filter]

/-- C10: the raw artifact path returned by a successful download is the
temporary name with the `.aac` suffix; the normalized path is derived
deterministically from the input path by replacing `.aac` with `.wav`
(independently of the filesystem state, so converting the same raw
artifact twice yields the same output path, never a fresh unique name);
and in a request whose download succeeds the conversion is invoked exactly
twice on the same raw path — once by the orchestrator and once inside the
Transcriber. -/
theorem wav_path_derivation (env : Env) :
    (∀ url st path st2, download_audio_file env url st = (.ok path, st2) →
      path = env.tmpBase ++ ".aac" ∧ ∃ b, path = b ++ ".aac") ∧
    (∀ p st st2,
      (convert_audio_to_wav env p st).1 = (convert_audio_to_wav env p st2).1) ∧
    (∀ p st a, env.decode p = some a →
      env.exportOk (p.replace ".aac" ".wav") = true →
      (convert_audio_to_wav env p st).1 = p.replace ".aac" ".wav") ∧
    (∀ url, env.body = .dict (some url) → url ≠ "" →
      (env.fetch url 30).exc = none →
      ((runT env).2.events.filter (isConvertCallOn (rawPath env))).length = 2) := by
  refine ⟨?_, ?_, ?_, ?_⟩
  · intro url st path st2 h
    cases hf : (env.fetch url 30).exc with
    | some c =>
      rw [download_err env url c hf st] at h
      simp at h
    | none =>
      rw [download_ok env url hf st] at h
      have hp := congrArg Prod.fst h
      simp at hp
      refine ⟨hp.symm, env.tmpBase, hp.symm⟩
  · intro p st st2
    rw [convert_audio_to_wav_fst, convert_audio_to_wav_fst]
  · intro p st a hd he
    rw [convert_audio_to_wav_fst]
    exact normPath_ok env p a hd he
  · intro url hb hu hf
    obtain ⟨h1, h2, h3⟩ := runT_success env url hb hu hf
    rw [h2]
    exact successTrace_convert_count env url

theorem wav_path_derivation_witness :
    (convert_audio_to_wav baseEnv "/tmp/tmpabc123.aac" St.init).1 =
      "/tmp/tmpabc123.aac".replace ".aac" ".wav" ∧
    ((runT baseEnv).2.events.filter (isConvertCallOn (rawPath baseEnv))).length = 2 := by
  obtain ⟨d1, d2, d3, d4⟩ := wav_path_derivation baseEnv
  exact ⟨d3 "/tmp/tmpabc123.aac" St.init ⟨44100, 2⟩ rfl rfl,
    d4 "http://example.com/a.aac" rfl (by decide) rfl⟩


end VoiceTracer
